import Mathlib

/-!
Verification of the login coordinator (`src/server/login/LoginServer.ts`).

The message handler of `LoginServer` is shallowly embedded: the `account`
and `session` database tables become lists of records, the
`data/players/<profile>/<username>.sav` file tree becomes an association
list keyed by `(profile, username)`, and the seven message types become a
closed inductive type of events.  External black boxes (`bcrypt.hashSync`,
`bcrypt.compare`, `PlayerLoading.verify`, `Environment.WEBSITE_REGISTRATION`)
are supplied as parameters in an `Env` record.  Timestamps are modelled as
naturals; `toDbDate` is the identity under this modelling.  Base64 transport
encoding is bijective, so save payloads are modelled directly as byte lists.
-/

namespace LoginServer

/-- A row of the `account` table: the columns read or written by
`LoginServer.ts` (`id`, `username`, `password` hash, `logged_in` owning
node id with 0 meaning unowned, `login_time`, `banned_until`,
`muted_until`, `staffmodlevel`). -/
structure Account where
  id : Nat
  username : String
  password : String
  logged_in : Nat
  login_time : Option Nat
  banned_until : Option Nat
  muted_until : Option Nat
  staffmodlevel : Nat
deriving DecidableEq, Repr

/-- A row of the append-only `session` table, inserted by `player_login`. -/
structure Session where
  uuid : Nat
  account_id : Nat
  profile : String
  world : Nat
  timestamp : Nat
  uid : Nat
  ip : String
deriving DecidableEq, Repr

/-- The save-file tree `data/players/<profile>/<username>.sav`, as an
association list from `(profile, username)` to the stored bytes. -/
abbrev SaveStore := List ((String × String) × List Nat)

/-- Reading `data/players/<profile>/<username>.sav`; `none` when
`fs.existsSync` is false. -/
def SaveStore.read (store : SaveStore) (profile username : String) : Option (List Nat) :=
  (store.find? (fun e => e.1 == (profile, username))).map (fun e => e.2)

/-- `fsp.writeFile` on `data/players/<profile>/<username>.sav`:
last-write-wins overwrite of the record for `(profile, username)`. -/
def SaveStore.write (store : SaveStore) (profile username : String) (bytes : List Nat) : SaveStore :=
  ((profile, username), bytes) :: store.filter (fun e => !(e.1 == (profile, username)))

/-- The durable state touched by the handler: the `account` table, the
`session` table and the save files. -/
structure LoginState where
  accounts : List Account
  sessions : List Session
  saves : SaveStore
deriving DecidableEq, Repr

/-- One JSON reply written back on the socket: `replyTo`, the numeric
`response` code, and the optional `staffmodlevel` / `save` / `muted_until`
fields (present on some replies only). -/
structure Reply where
  replyTo : Nat
  response : Nat
  staffmodlevel : Option Nat
  save : Option (List Nat)
  muted_until : Option (Option Nat)
deriving DecidableEq, Repr

/-- A reply carrying only `replyTo` and `response`. -/
def simpleReply (replyTo response : Nat) : Reply :=
  { replyTo := replyTo, response := response, staffmodlevel := none, save := none,
    muted_until := none }

/-- Modelled from the spec: the external capabilities the handler calls
into.  `WEBSITE_REGISTRATION` is the environment flag; `hashSync` and
`compare` are the one-way password-hashing primitive (`bcrypt`), and
`verify` is the structural save-format check (`PlayerLoading.verify`),
whose sources are outside this subsystem; all are treated as opaque
functions, exactly as the spec treats them (black-box hash/verify
capabilities). -/
structure Env where
  WEBSITE_REGISTRATION : Bool
  hashSync : String → Nat → String
  compare : String → String → Bool
  verify : List Nat → Bool

/-- The closed union of inbound message types recognised by the handler
(the `type` tag dispatch in `LoginServer.ts`). -/
inductive LoginEvent where
  | world_startup (nodeId nodeTime : Nat)
  | player_login (replyTo : Nat) (username password : String) (uid : Nat) (profile : String)
      (socket : Nat) (remoteAddress : String) (nodeId nodeTime : Nat)
  | player_logout (replyTo : Nat) (username : String) (save : List Nat) (profile : String)
  | player_autosave (username : String) (save : List Nat) (profile : String)
  | player_force_logout (username : String)
  | player_ban (username : String) (untilTime : Nat)
  | player_mute (username : String) (untilTime : Nat)
deriving DecidableEq, Repr

/-- The handler's outcome on one message: the new durable state and the
list of replies written to the socket, in order. -/
structure Result where
  state : LoginState
  replies : List Reply
deriving DecidableEq, Repr

/-- `password.toLowerCase()` restricted to the basic latin letters
(`Char.toLower` character-wise). -/
def toLowerCase (s : String) : String :=
  ⟨s.data.map Char.toLower⟩

/-- `new Date(banned_until) > new Date()`: the stored ban expiry is set
and strictly in the future. -/
def bannedNow (banned_until : Option Nat) (now : Nat) : Bool :=
  match banned_until with
  | none => false
  | some t => now < t

/-- The auto-increment id the database assigns to a freshly inserted
account row. -/
def freshId (accounts : List Account) : Nat :=
  accounts.foldr (fun a m => max a.id m) 0 + 1

/-- The account row created by automatic registration: `username` and the
bcrypt hash of the lowercased password are supplied; the remaining columns
take their schema defaults (unowned, no timestamps, staff level 0). -/
def registeredAccount (env : Env) (accounts : List Account) (username password : String) :
    Account :=
  { id := freshId accounts, username := username,
    password := env.hashSync (toLowerCase password) 10,
    logged_in := 0, login_time := none, banned_until := none, muted_until := none,
    staffmodlevel := 0 }

/-- The tail of `player_login` after the session insert and the ownership
branch: `update account set logged_in = nodeId, login_time = now where
id = account.id`, then the save-file check, replying 4 (no save) or 0
(save bytes attached).  `sent` holds any reply already written (the code-2
reconnect reply, which does not return). -/
def afterOwnership (now : Nat) (st : LoginState) (account : Account)
    (replyTo : Nat) (profile username : String) (nodeId : Nat) (sent : List Reply) : Result :=
  let st2 : LoginState :=
    { st with accounts := st.accounts.map (fun a =>
        if a.id == account.id then { a with logged_in := nodeId, login_time := some now }
        else a) }
  match st2.saves.read profile username with
  | none =>
      { state := st2,
        replies := sent ++
          [{ replyTo := replyTo, response := 4,
             staffmodlevel := some account.staffmodlevel, save := none,
             muted_until := some account.muted_until }] }
  | some save =>
      { state := st2,
        replies := sent ++
          [{ replyTo := replyTo, response := 0,
             staffmodlevel := some account.staffmodlevel, save := some save,
             muted_until := some account.muted_until }] }

/-- The `player_login` branch of the handler, line for line from
`LoginServer.ts`: lookup by exact username; auto-registration when no
website registration and no account; credential check; ban check; session
insert; ownership branch (note the reconnect arm falls through: the source
sends code 2 and does not return). -/
def handle_player_login (env : Env) (now : Nat) (st : LoginState)
    (replyTo : Nat) (username password : String) (uid : Nat) (profile : String)
    (socket : Nat) (remoteAddress : String) (nodeId nodeTime : Nat) : Result :=
  let acct := st.accounts.find? (fun a => a.username == username)
  if !env.WEBSITE_REGISTRATION && acct.isNone then
    { state := { st with
        accounts := st.accounts ++ [registeredAccount env st.accounts username password] },
      replies := [{ replyTo := replyTo, response := 4, staffmodlevel := some 0,
                    save := none, muted_until := none }] }
  else
    match acct with
    | none => { state := st, replies := [simpleReply replyTo 1] }
    | some account =>
      if !(env.compare (toLowerCase password) account.password) then
        { state := st, replies := [simpleReply replyTo 1] }
      else if bannedNow account.banned_until now then
        { state := st, replies := [simpleReply replyTo 5] }
      else
        let st1 : LoginState :=
          { st with sessions := st.sessions ++
              [{ uuid := socket, account_id := account.id,
                 profile := profile, world := nodeId, timestamp := nodeTime, uid := uid,
                 ip := remoteAddress }] }
        if account.logged_in == nodeId then
          afterOwnership now st1 account replyTo profile username nodeId
            [simpleReply replyTo 2]
        else if !(account.logged_in == 0) then
          { state := st1, replies := [simpleReply replyTo 3] }
        else
          afterOwnership now st1 account replyTo profile username nodeId []

/-- The `player_logout` branch: verify the payload and write the save file
only on success, then unconditionally reset ownership
(`logged_in = 0, login_time = null` where username matches) and reply 0. -/
def handle_player_logout (env : Env) (st : LoginState)
    (replyTo : Nat) (username : String) (save : List Nat) (profile : String) : Result :=
  let saves1 := if env.verify save then st.saves.write profile username save else st.saves
  { state := { st with
      saves := saves1,
      accounts := st.accounts.map (fun a =>
        if a.username == username then { a with logged_in := 0, login_time := none } else a) },
    replies := [simpleReply replyTo 0] }

/-- The `player_autosave` branch: verify and conditionally write the save
file; no reply, no database write. -/
def handle_player_autosave (env : Env) (st : LoginState)
    (username : String) (save : List Nat) (profile : String) : Result :=
  let saves1 := if env.verify save then st.saves.write profile username save else st.saves
  { state := { st with saves := saves1 }, replies := [] }

/-- The full message handler: dispatch on the `type` tag. -/
def handleMessage (env : Env) (now : Nat) (st : LoginState) : LoginEvent → Result
  | .world_startup nodeId _nodeTime =>
      { state := { st with accounts := st.accounts.map (fun a =>
          if a.logged_in == nodeId then { a with logged_in := 0, login_time := none }
          else a) },
        replies := [] }
  | .player_login replyTo username password uid profile socket remoteAddress nodeId nodeTime =>
      handle_player_login env now st replyTo username password uid profile socket
        remoteAddress nodeId nodeTime
  | .player_logout replyTo username save profile =>
      handle_player_logout env st replyTo username save profile
  | .player_autosave username save profile =>
      handle_player_autosave env st username save profile
  | .player_force_logout username =>
      { state := { st with accounts := st.accounts.map (fun a =>
          if a.username == username then { a with logged_in := 0, login_time := none }
          else a) },
        replies := [] }
  | .player_ban username untilTime =>
      { state := { st with accounts := st.accounts.map (fun a =>
          if a.username == username then { a with banned_until := some untilTime } else a) },
        replies := [] }
  | .player_mute username untilTime =>
      { state := { st with accounts := st.accounts.map (fun a =>
          if a.username == username then { a with muted_until := some untilTime } else a) },
        replies := [] }

/-! Concrete fixtures used by witnesses and counterexamples. -/

/-- A concrete environment: website registration on, identity hashing,
string equality as the hash comparison, and a verifier accepting exactly
the nonempty payloads. -/
def testEnv : Env :=
  { WEBSITE_REGISTRATION := true,
    hashSync := fun s _ => s,
    compare := fun p h => p == h,
    verify := fun raw => !raw.isEmpty }

/-- A concrete environment with automatic registration enabled. -/
def openRegEnv : Env :=
  { WEBSITE_REGISTRATION := false,
    hashSync := fun s _ => s,
    compare := fun p h => p == h,
    verify := fun raw => !raw.isEmpty }

/-- A concrete account currently owned by node 7. -/
def aliceAccount : Account :=
  { id := 1, username := "alice", password := "pw", logged_in := 7,
    login_time := some 100, banned_until := none, muted_until := none, staffmodlevel := 0 }

/-- A concrete state holding only `aliceAccount` and no saves. -/
def aliceState : LoginState :=
  { accounts := [aliceAccount], sessions := [], saves := [] }

/-- A reconnect login against `aliceState`: correct password, not banned,
and `logged_in` already equal to the requesting node id 7. -/
def reconnectResult : Result :=
  handleMessage testEnv 200 aliceState (.player_login 9 "alice" "pw" 1 "main" 3 "ip" 7 200)

/-! Helper lemmas. -/

/-- `find?` by username commutes with mapping a username-preserving update
over the account table. -/
theorem find?_map_preserving (l : List Account) (username : String) (g : Account → Account)
    (hg : ∀ a, (g a).username = a.username) :
    ∀ account, l.find? (fun a => a.username == username) = some account →
      (l.map g).find? (fun a => a.username == username) = some (g account) := by
  induction l with
  | nil => intro account h; simp [List.find?] at h
  | cons a t ih =>
    intro account h
    by_cases hcase : (a.username == username) = true
    · simp only [List.find?_cons, hcase] at h
      simp only [List.map_cons, List.find?_cons, hg a, hcase]
      obtain rfl := Option.some.inj h
      rfl
    · have hfalse : (a.username == username) = false := by simpa using hcase
      simp only [List.find?_cons, hfalse] at h
      simp only [List.map_cons, List.find?_cons, hg a, hfalse]
      exact ih account h

/-- Reading a key immediately after writing it returns the written bytes. -/
theorem SaveStore.read_write (store : SaveStore) (profile username : String) (bytes : List Nat) :
    (store.write profile username bytes).read profile username = some bytes := by
  simp [SaveStore.read, SaveStore.write]

/-- C1, counterexample: on a reconnect (`logged_in == nodeId`) with
correct credentials and no ban, the handler does not stop at the code-2
reply: the source has no `return` in that arm, so a second reply (here
code 4) is sent and `login_time` is overwritten with the current time
(100 becomes 200). -/
theorem C1_counterexample :
    reconnectResult.replies.map Reply.response = [2, 4] ∧
    reconnectResult.state.accounts.map Account.login_time = [some 200] ∧
    aliceAccount.login_time = some 100 := by decide

/-- C1, amended: on a player_login with verified credentials, no active
ban, and `logged_in == nodeId`, the handler replies code 2 *followed by a
second reply* of code 0 (save attached) or 4 (no save); `logged_in` keeps
its value, but `login_time` is set to the current time. -/
theorem C1_reconnect (env : Env) (now : Nat) (st : LoginState)
    (replyTo : Nat) (username password : String) (uid : Nat) (profile : String)
    (socket : Nat) (remoteAddress : String) (nodeId nodeTime : Nat) (account : Account)
    (hacc : st.accounts.find? (fun a => a.username == username) = some account)
    (hpw : env.compare (toLowerCase password) account.password = true)
    (hban : bannedNow account.banned_until now = false)
    (hown : account.logged_in = nodeId) :
    (∃ rep, (handleMessage env now st (.player_login replyTo username password uid profile
        socket remoteAddress nodeId nodeTime)).replies = [simpleReply replyTo 2, rep] ∧
      (rep.response = 0 ∨ rep.response = 4)) ∧
    (handleMessage env now st (.player_login replyTo username password uid profile
        socket remoteAddress nodeId nodeTime)).state.accounts.find?
        (fun a => a.username == username) = some { account with login_time := some now } := by
  subst hown
  have hfind :
      (st.accounts.map (fun a =>
        if a.id == account.id then
          { a with logged_in := account.logged_in, login_time := some now }
        else a)).find? (fun a => a.username == username) =
      some { account with login_time := some now } := by
    have := find?_map_preserving st.accounts username
      (fun a =>
        if a.id == account.id then
          { a with logged_in := account.logged_in, login_time := some now }
        else a)
      (by intro a; by_cases h : (a.id == account.id) = true <;> simp [h]) account hacc
    simpa using this
  simp only [handleMessage, handle_player_login, hacc, Option.isNone_some,
    Bool.and_false, Bool.false_eq_true, if_false, hpw, Bool.not_true, hban,
    beq_self_eq_true, if_true, afterOwnership]
  constructor
  · split
    · exact ⟨_, rfl, Or.inr rfl⟩
    · exact ⟨_, rfl, Or.inl rfl⟩
  · split
    · exact hfind
    · exact hfind

/-- C1, witness: the amended theorem applied to the concrete reconnect
fixture. -/
theorem C1_reconnect_witness :
    (∃ rep, reconnectResult.replies = [simpleReply 9 2, rep] ∧
      (rep.response = 0 ∨ rep.response = 4)) ∧
    reconnectResult.state.accounts.find? (fun a => a.username == "alice") =
      some { aliceAccount with login_time := some 200 } :=
  C1_reconnect testEnv 200 aliceState 9 "alice" "pw" 1 "main" 3 "ip" 7 200 aliceAccount
    (by decide) (by decide) (by decide) (by decide)

/-- An account with `logged_in == 0` and a stored save, used by the C2 and
C8 witnesses. -/
def carolAccount : Account :=
  { id := 2, username := "carol", password := "pw", logged_in := 0,
    login_time := none, banned_until := none, muted_until := none, staffmodlevel := 1 }

/-- A state holding `carolAccount` and a save blob for `(main, carol)`. -/
def carolState : LoginState :=
  { accounts := [carolAccount], sessions := [],
    saves := [(("main", "carol"), [1, 2, 3])] }

/-- A fresh login against `carolState` from node 9. -/
def carolResult : Result :=
  handleMessage testEnv 300 carolState (.player_login 12 "carol" "pw" 1 "main" 3 "ip" 9 300)

/-- The characterisation of `player_login` on an unowned account
(`logged_in == 0`) with verified credentials, no active ban and a nonzero
requesting node: ownership is claimed (`logged_in := nodeId`,
`login_time := now`) and exactly one reply is sent — code 4 when no save
exists, code 0 carrying the save bytes otherwise. -/
theorem login_unowned_spec (env : Env) (now : Nat) (st : LoginState)
    (replyTo : Nat) (username password : String) (uid : Nat) (profile : String)
    (socket : Nat) (remoteAddress : String) (nodeId nodeTime : Nat) (account : Account)
    (hacc : st.accounts.find? (fun a => a.username == username) = some account)
    (hpw : env.compare (toLowerCase password) account.password = true)
    (hban : bannedNow account.banned_until now = false)
    (hzero : account.logged_in = 0)
    (hnode : nodeId ≠ 0) :
    (handleMessage env now st (.player_login replyTo username password uid profile
        socket remoteAddress nodeId nodeTime)).state.accounts.find?
        (fun a => a.username == username) =
      some { account with logged_in := nodeId, login_time := some now } ∧
    (st.saves.read profile username = none →
      (handleMessage env now st (.player_login replyTo username password uid profile
          socket remoteAddress nodeId nodeTime)).replies =
        [{ replyTo := replyTo, response := 4, staffmodlevel := some account.staffmodlevel,
           save := none, muted_until := some account.muted_until }]) ∧
    (∀ b, st.saves.read profile username = some b →
      (handleMessage env now st (.player_login replyTo username password uid profile
          socket remoteAddress nodeId nodeTime)).replies =
        [{ replyTo := replyTo, response := 0, staffmodlevel := some account.staffmodlevel,
           save := some b, muted_until := some account.muted_until }]) := by
  have h1 : (account.logged_in == nodeId) = false := by
    rw [hzero]; exact beq_eq_false_iff_ne.mpr (Ne.symm hnode)
  have h2 : (account.logged_in == 0) = true := by rw [hzero]; exact beq_self_eq_true 0
  have hfind :
      (st.accounts.map (fun a =>
        if a.id == account.id then
          { a with logged_in := nodeId, login_time := some now }
        else a)).find? (fun a => a.username == username) =
      some { account with logged_in := nodeId, login_time := some now } := by
    have := find?_map_preserving st.accounts username
      (fun a =>
        if a.id == account.id then
          { a with logged_in := nodeId, login_time := some now }
        else a)
      (by intro a; by_cases h : (a.id == account.id) = true <;> simp [h]) account hacc
    simpa using this
  simp only [handleMessage, handle_player_login, hacc, Option.isNone_some,
    Bool.and_false, Bool.false_eq_true, if_false, hpw, Bool.not_true, hban, h1, h2,
    afterOwnership]
  refine ⟨?_, ?_, ?_⟩
  · split
    · exact hfind
    · exact hfind
  · intro hread
    split
    · rfl
    · rename_i b heq
      rw [heq] at hread
      exact absurd hread (by simp)
  · intro b hread
    split
    · rename_i heq
      rw [heq] at hread
      exact absurd hread (by simp)
    · rename_i b2 heq
      rw [heq] at hread
      obtain rfl := Option.some.inj hread
      rfl

/-- C2: a player_login with verified credentials and no active ban, on an
account with `logged_in == 0`, sets `logged_in` to the (nonzero)
requesting node id and `login_time` to the current time, and sends exactly
one reply — code 4 when no save exists for `(profile, username)`, code 0
when one does — never code 1, 2, 3 or 5. -/
theorem C2_claim_ownership (env : Env) (now : Nat) (st : LoginState)
    (replyTo : Nat) (username password : String) (uid : Nat) (profile : String)
    (socket : Nat) (remoteAddress : String) (nodeId nodeTime : Nat) (account : Account)
    (hacc : st.accounts.find? (fun a => a.username == username) = some account)
    (hpw : env.compare (toLowerCase password) account.password = true)
    (hban : bannedNow account.banned_until now = false)
    (hzero : account.logged_in = 0)
    (hnode : nodeId ≠ 0) :
    (handleMessage env now st (.player_login replyTo username password uid profile
        socket remoteAddress nodeId nodeTime)).state.accounts.find?
        (fun a => a.username == username) =
      some { account with logged_in := nodeId, login_time := some now } ∧
    (st.saves.read profile username = none →
      (handleMessage env now st (.player_login replyTo username password uid profile
          socket remoteAddress nodeId nodeTime)).replies =
        [{ replyTo := replyTo, response := 4, staffmodlevel := some account.staffmodlevel,
           save := none, muted_until := some account.muted_until }]) ∧
    (∀ b, st.saves.read profile username = some b →
      (handleMessage env now st (.player_login replyTo username password uid profile
          socket remoteAddress nodeId nodeTime)).replies =
        [{ replyTo := replyTo, response := 0, staffmodlevel := some account.staffmodlevel,
           save := some b, muted_until := some account.muted_until }]) :=
  login_unowned_spec env now st replyTo username password uid profile socket remoteAddress
    nodeId nodeTime account hacc hpw hban hzero hnode

/-- C2, witness: the fresh login against `carolState` claims ownership for
node 9 and replies code 0 with carol's stored save bytes. -/
theorem C2_claim_ownership_witness :
    carolResult.state.accounts.find? (fun a => a.username == "carol") =
      some { carolAccount with logged_in := 9, login_time := some 300 } ∧
    carolResult.replies =
      [{ replyTo := 12, response := 0, staffmodlevel := some 1,
         save := some [1, 2, 3], muted_until := some none }] := by
  have h := C2_claim_ownership testEnv 300 carolState 12 "carol" "pw" 1 "main" 3 "ip" 9 300
    carolAccount (by decide) (by decide) (by decide) (by decide) (by decide)
  exact ⟨h.1, h.2.2 [1, 2, 3] (by decide)⟩

/-- A banned account (ban expiring at time 1000), used for C3. -/
def bobAccount : Account :=
  { id := 3, username := "bob", password := "hunter2", logged_in := 4,
    login_time := some 50, banned_until := some 1000, muted_until := none, staffmodlevel := 0 }

/-- A state holding only the banned `bobAccount`. -/
def bobState : LoginState :=
  { accounts := [bobAccount], sessions := [], saves := [] }

/-- A login for banned bob at time 500 with a wrong password. -/
def bobWrongPwResult : Result :=
  handleMessage testEnv 500 bobState (.player_login 11 "bob" "wrong" 1 "main" 3 "ip" 9 500)

/-- A login for banned bob at time 500 with the correct password. -/
def bobRightPwResult : Result :=
  handleMessage testEnv 500 bobState (.player_login 11 "bob" "hunter2" 1 "main" 3 "ip" 9 500)

/-- C3, counterexample: the credential check runs before the ban check, so
a login on the existing, currently banned account `bob` with a wrong
password is answered with code 1, not code 5. -/
theorem C3_counterexample :
    bannedNow bobAccount.banned_until 500 = true ∧
    bobWrongPwResult.replies.map Reply.response = [1] := by decide

/-- C3, amended: a player_login whose credentials verify, on an existing
account whose `banned_until` is set and strictly in the future, replies
code 5 regardless of the ownership state and changes nothing — in
particular no Session row is inserted. -/
theorem C3_banned (env : Env) (now : Nat) (st : LoginState)
    (replyTo : Nat) (username password : String) (uid : Nat) (profile : String)
    (socket : Nat) (remoteAddress : String) (nodeId nodeTime : Nat) (account : Account)
    (b : Nat)
    (hacc : st.accounts.find? (fun a => a.username == username) = some account)
    (hpw : env.compare (toLowerCase password) account.password = true)
    (hb : account.banned_until = some b)
    (hfut : now < b) :
    handleMessage env now st (.player_login replyTo username password uid profile
        socket remoteAddress nodeId nodeTime) =
      { state := st, replies := [simpleReply replyTo 5] } := by
  have hban : bannedNow account.banned_until now = true := by
    rw [hb]; exact decide_eq_true hfut
  simp [handleMessage, handle_player_login, hacc, hpw, hban]

/-- C3, witness: the amended theorem at the banned-bob fixture with the
correct password; the reply is code 5 and the state (sessions included) is
untouched. -/
theorem C3_banned_witness :
    bobRightPwResult = { state := bobState, replies := [simpleReply 11 5] } :=
  C3_banned testEnv 500 bobState 11 "bob" "hunter2" 1 "main" 3 "ip" 9 500 bobAccount 1000
    (by decide) (by decide) (by decide) (by decide)

/-- C6: a player_login with verified credentials and no active ban, on an
account owned by a different node (`logged_in` nonzero and different from
`nodeId`), replies code 3 only and leaves the account table and the saves
untouched (only the Session row is appended before the reply). -/
theorem C6_owned_elsewhere (env : Env) (now : Nat) (st : LoginState)
    (replyTo : Nat) (username password : String) (uid : Nat) (profile : String)
    (socket : Nat) (remoteAddress : String) (nodeId nodeTime : Nat) (account : Account)
    (hacc : st.accounts.find? (fun a => a.username == username) = some account)
    (hpw : env.compare (toLowerCase password) account.password = true)
    (hban : bannedNow account.banned_until now = false)
    (hnonzero : account.logged_in ≠ 0)
    (hother : account.logged_in ≠ nodeId) :
    (handleMessage env now st (.player_login replyTo username password uid profile
        socket remoteAddress nodeId nodeTime)).replies = [simpleReply replyTo 3] ∧
    (handleMessage env now st (.player_login replyTo username password uid profile
        socket remoteAddress nodeId nodeTime)).state.accounts = st.accounts ∧
    (handleMessage env now st (.player_login replyTo username password uid profile
        socket remoteAddress nodeId nodeTime)).state.saves = st.saves := by
  have h1 : (account.logged_in == nodeId) = false := beq_eq_false_iff_ne.mpr hother
  have h2 : (account.logged_in == 0) = false := beq_eq_false_iff_ne.mpr hnonzero
  simp [handleMessage, handle_player_login, hacc, hpw, hban, h1, h2]

/-- C6, witness: a login for alice (owned by node 7) from node 9 replies
code 3 and leaves the account row untouched. -/
theorem C6_owned_elsewhere_witness :
    (handleMessage testEnv 400 aliceState
        (.player_login 13 "alice" "pw" 1 "main" 3 "ip" 9 400)).replies =
      [simpleReply 13 3] ∧
    (handleMessage testEnv 400 aliceState
        (.player_login 13 "alice" "pw" 1 "main" 3 "ip" 9 400)).state.accounts =
      aliceState.accounts ∧
    (handleMessage testEnv 400 aliceState
        (.player_login 13 "alice" "pw" 1 "main" 3 "ip" 9 400)).state.saves =
      aliceState.saves :=
  C6_owned_elsewhere testEnv 400 aliceState 13 "alice" "pw" 1 "main" 3 "ip" 9 400 aliceAccount
    (by decide) (by decide) (by decide) (by decide) (by decide)

/-- C4: player_logout always replies exactly code 0 and resets every
account row matching the username to `logged_in = 0, login_time = null`,
leaving the other rows in place — with no assumption on the save payload,
so this holds whether the payload passes structural verification or
fails it. -/
theorem C4_logout (env : Env) (now : Nat) (st : LoginState)
    (replyTo : Nat) (username : String) (save : List Nat) (profile : String) :
    (handleMessage env now st (.player_logout replyTo username save profile)).replies =
      [simpleReply replyTo 0] ∧
    (∀ a ∈ st.accounts, a.username = username →
      { a with logged_in := 0, login_time := none } ∈
        (handleMessage env now st (.player_logout replyTo username save profile)).state.accounts) ∧
    (∀ a ∈ st.accounts, a.username ≠ username →
      a ∈ (handleMessage env now st
        (.player_logout replyTo username save profile)).state.accounts) := by
  refine ⟨rfl, ?_, ?_⟩
  · intro a ha hu
    have hmem := List.mem_map_of_mem (fun a : Account =>
      if a.username == username then { a with logged_in := 0, login_time := none } else a) ha
    simpa [handleMessage, handle_player_logout, hu] using hmem
  · intro a ha hu
    have hmem := List.mem_map_of_mem (fun a : Account =>
      if a.username == username then { a with logged_in := 0, login_time := none } else a) ha
    simpa [handleMessage, handle_player_logout, hu] using hmem

/-- C4, witness: logging alice out (with an arbitrary save payload) replies
code 0 and yields an alice row with `logged_in = 0, login_time = null`. -/
theorem C4_logout_witness :
    (handleMessage testEnv 0 aliceState (.player_logout 9 "alice" [1] "main")).replies =
      [simpleReply 9 0] ∧
    { aliceAccount with logged_in := 0, login_time := none } ∈
      (handleMessage testEnv 0 aliceState (.player_logout 9 "alice" [1] "main")).state.accounts := by
  have h := C4_logout testEnv 0 aliceState 9 "alice" [1] "main"
  exact ⟨h.1, h.2.1 aliceAccount (by decide) (by decide)⟩

/-- C5: after `world_startup(nodeId)` with a nonzero node id (0 is the
unowned sentinel, not a node identifier), no account has
`logged_in == nodeId`: every row owned by that node is reset to
`logged_in = 0, login_time = null`, rows owned by other nodes are kept
unchanged, and no reply is sent. -/
theorem C5_world_startup (env : Env) (now : Nat) (st : LoginState) (nodeId nodeTime : Nat)
    (hnode : nodeId ≠ 0) :
    (∀ a ∈ (handleMessage env now st (.world_startup nodeId nodeTime)).state.accounts,
      a.logged_in ≠ nodeId) ∧
    (∀ a ∈ st.accounts, a.logged_in = nodeId →
      { a with logged_in := 0, login_time := none } ∈
        (handleMessage env now st (.world_startup nodeId nodeTime)).state.accounts) ∧
    (∀ a ∈ st.accounts, a.logged_in ≠ nodeId →
      a ∈ (handleMessage env now st (.world_startup nodeId nodeTime)).state.accounts) ∧
    (handleMessage env now st (.world_startup nodeId nodeTime)).replies = [] := by
  refine ⟨?_, ?_, ?_, rfl⟩
  · intro a' ha'
    simp only [handleMessage] at ha'
    obtain ⟨a, _, rfl⟩ := List.mem_map.mp ha'
    by_cases h : (a.logged_in == nodeId) = true
    · simp [h]
      exact Ne.symm hnode
    · have hfalse : (a.logged_in == nodeId) = false := by simpa using h
      simp [hfalse]
      simpa using h
  · intro a ha hown
    have hmem := List.mem_map_of_mem (fun a : Account =>
      if a.logged_in == nodeId then { a with logged_in := 0, login_time := none } else a) ha
    simpa [handleMessage, hown] using hmem
  · intro a ha hown
    have hmem := List.mem_map_of_mem (fun a : Account =>
      if a.logged_in == nodeId then { a with logged_in := 0, login_time := none } else a) ha
    simpa [handleMessage, beq_eq_false_iff_ne.mpr hown] using hmem

/-- C5, witness: node 7 restarting over `aliceState` (alice owned by node
7) resets alice and sends nothing. -/
theorem C5_world_startup_witness :
    (∀ a ∈ (handleMessage testEnv 0 aliceState (.world_startup 7 0)).state.accounts,
      a.logged_in ≠ 7) ∧
    { aliceAccount with logged_in := 0, login_time := none } ∈
      (handleMessage testEnv 0 aliceState (.world_startup 7 0)).state.accounts ∧
    (handleMessage testEnv 0 aliceState (.world_startup 7 0)).replies = [] := by
  have h := C5_world_startup testEnv 0 aliceState 7 0 (by decide)
  exact ⟨h.1, h.2.1 aliceAccount (by decide) (by decide), h.2.2.2⟩

/-- C7: player_autosave never touches the account table or the session
log and sends no reply; its only effect is on the save store — the
payload is written when it passes structural verification and nothing
changes when it fails. -/
theorem C7_autosave (env : Env) (now : Nat) (st : LoginState)
    (username : String) (save : List Nat) (profile : String) :
    (handleMessage env now st (.player_autosave username save profile)).state.accounts =
      st.accounts ∧
    (handleMessage env now st (.player_autosave username save profile)).state.sessions =
      st.sessions ∧
    (handleMessage env now st (.player_autosave username save profile)).replies = [] ∧
    (env.verify save = true →
      (handleMessage env now st (.player_autosave username save profile)).state.saves =
        st.saves.write profile username save) ∧
    (env.verify save = false →
      (handleMessage env now st (.player_autosave username save profile)).state.saves =
        st.saves) := by
  refine ⟨rfl, rfl, rfl, ?_, ?_⟩
  · intro h
    simp [handleMessage, handle_player_autosave, h]
  · intro h
    simp [handleMessage, handle_player_autosave, h]

/-- C7, witness: autosaves over `carolState` with a passing payload (the
nonempty `[7]`) and a failing one (the empty list); neither touches the
account row or replies, and only the passing one rewrites the store. -/
theorem C7_autosave_witness :
    (handleMessage testEnv 0 carolState (.player_autosave "carol" [7] "main")).state.accounts =
      carolState.accounts ∧
    (handleMessage testEnv 0 carolState (.player_autosave "carol" [7] "main")).replies = [] ∧
    (handleMessage testEnv 0 carolState (.player_autosave "carol" [7] "main")).state.saves =
      carolState.saves.write "main" "carol" [7] ∧
    (handleMessage testEnv 0 carolState (.player_autosave "carol" [] "main")).state.accounts =
      carolState.accounts ∧
    (handleMessage testEnv 0 carolState (.player_autosave "carol" [] "main")).state.saves =
      carolState.saves := by
  have h1 := C7_autosave testEnv 0 carolState "carol" [7] "main"
  have h2 := C7_autosave testEnv 0 carolState "carol" [] "main"
  exact ⟨h1.1, h1.2.2.1, h1.2.2.2.1 (by decide), h2.1, h2.2.2.2.2 (by decide)⟩

/-- C8: first, a payload passing structural verification and written via
player_logout or player_autosave is read back unchanged for the same
`(profile, username)`; second, a failing payload leaves the save store
exactly as it was; third, a subsequent successful fresh login reading that
key returns the stored bytes verbatim in its code-0 reply. -/
theorem C8_save_roundtrip (env : Env) (now : Nat) (st st2 : LoginState)
    (replyTo replyTo2 : Nat) (username password : String) (uid : Nat) (profile : String)
    (socket : Nat) (remoteAddress : String) (nodeId nodeTime : Nat) (raw : List Nat)
    (account : Account) :
    (env.verify raw = true →
      (handleMessage env now st
          (.player_logout replyTo username raw profile)).state.saves.read profile username =
        some raw ∧
      (handleMessage env now st
          (.player_autosave username raw profile)).state.saves.read profile username =
        some raw) ∧
    (env.verify raw = false →
      (handleMessage env now st (.player_logout replyTo username raw profile)).state.saves =
        st.saves ∧
      (handleMessage env now st (.player_autosave username raw profile)).state.saves =
        st.saves) ∧
    (st2.accounts.find? (fun a => a.username == username) = some account →
      env.compare (toLowerCase password) account.password = true →
      bannedNow account.banned_until now = false →
      account.logged_in = 0 →
      nodeId ≠ 0 →
      st2.saves.read profile username = some raw →
      (handleMessage env now st2 (.player_login replyTo2 username password uid profile
          socket remoteAddress nodeId nodeTime)).replies =
        [{ replyTo := replyTo2, response := 0, staffmodlevel := some account.staffmodlevel,
           save := some raw, muted_until := some account.muted_until }]) := by
  refine ⟨?_, ?_, ?_⟩
  · intro h
    constructor
    · simp only [handleMessage, handle_player_logout, h, if_true]
      exact SaveStore.read_write st.saves profile username raw
    · simp only [handleMessage, handle_player_autosave, h, if_true]
      exact SaveStore.read_write st.saves profile username raw
  · intro h
    constructor
    · simp [handleMessage, handle_player_logout, h]
    · simp [handleMessage, handle_player_autosave, h]
  · intro hacc hpw hban hzero hnode hread
    exact (login_unowned_spec env now st2 replyTo2 username password uid profile socket
      remoteAddress nodeId nodeTime account hacc hpw hban hzero hnode).2.2 raw hread

/-- C8, witness: over `carolState`, logging out with the valid payload
`[9, 9]` stores it and a fresh login reads those bytes back; the invalid
(empty) payload leaves the store untouched. -/
theorem C8_save_roundtrip_witness :
    (handleMessage testEnv 300 carolState
        (.player_logout 12 "carol" [9, 9] "main")).state.saves.read "main" "carol" =
      some [9, 9] ∧
    (handleMessage testEnv 300 carolState
        (.player_logout 12 "carol" [] "main")).state.saves = carolState.saves ∧
    carolResult.replies =
      [{ replyTo := 12, response := 0, staffmodlevel := some 1,
         save := some [1, 2, 3], muted_until := some none }] := by
  have h1 := C8_save_roundtrip testEnv 300 carolState carolState 12 12 "carol" "pw" 1 "main"
    3 "ip" 9 300 [9, 9] carolAccount
  have h2 := C8_save_roundtrip testEnv 300 carolState carolState 12 12 "carol" "pw" 1 "main"
    3 "ip" 9 300 [] carolAccount
  have h3 := C8_save_roundtrip testEnv 300 carolState carolState 12 12 "carol" "pw" 1 "main"
    3 "ip" 9 300 [1, 2, 3] carolAccount
  exact ⟨(h1.1 (by decide)).1, (h2.2.1 (by decide)).1,
    h3.2.2 (by decide) (by decide) (by decide) (by decide) (by decide) (by decide)⟩

/-- `Char.ofNat` of a codepoint below the surrogate range round-trips
through `Char.toNat`. -/
theorem toNat_ofNat_small (m : Nat) (h : m < 55296) : (Char.ofNat m).toNat = m := by
  have hv : m.isValidChar := Or.inl h
  simp [Char.ofNat, hv, Char.toNat, Char.ofNatAux, UInt32.toNat]

/-- Lowercasing a character twice is the same as lowercasing it once. -/
theorem toLower_idem (c : Char) : c.toLower.toLower = c.toLower := by
  unfold Char.toLower
  by_cases h : c.toNat ≥ 65 ∧ c.toNat ≤ 90
  · have h1 : c.toNat + 32 < 55296 := by omega
    have h2 : (Char.ofNat (c.toNat + 32)).toNat = c.toNat + 32 := toNat_ofNat_small _ h1
    have h3 : ¬ ((Char.ofNat (c.toNat + 32)).toNat ≥ 65 ∧
        (Char.ofNat (c.toNat + 32)).toNat ≤ 90) := by
      rw [h2]; omega
    simp [h, h3]
  · simp [h]

/-- Lowercasing a string twice is the same as lowercasing it once. -/
theorem toLowerCase_idem (s : String) : toLowerCase (toLowerCase s) = toLowerCase s := by
  unfold toLowerCase
  apply congrArg String.mk
  show (s.data.map Char.toLower).map Char.toLower = s.data.map Char.toLower
  rw [List.map_map]
  exact List.map_congr_left (fun c _ => toLower_idem c)

/-- C9: player_login treats the supplied password case-insensitively — the
handler is unchanged when the password is replaced by its lowercase form,
because the source lowercases it before hashing at auto-registration and
before the bcrypt comparison. -/
theorem C9_password_lowercased (env : Env) (now : Nat) (st : LoginState)
    (replyTo : Nat) (username password : String) (uid : Nat) (profile : String)
    (socket : Nat) (remoteAddress : String) (nodeId nodeTime : Nat) :
    handleMessage env now st (.player_login replyTo username password uid profile
        socket remoteAddress nodeId nodeTime) =
    handleMessage env now st (.player_login replyTo username (toLowerCase password) uid profile
        socket remoteAddress nodeId nodeTime) := by
  simp only [handleMessage, handle_player_login, registeredAccount, toLowerCase_idem]

/-- C10: any player_login answered by the single code-1 reply (invalid
credentials) leaves the durable state — accounts, sessions and saves —
exactly as it was. -/
theorem C10_code1_no_mutation (env : Env) (now : Nat) (st : LoginState)
    (replyTo : Nat) (username password : String) (uid : Nat) (profile : String)
    (socket : Nat) (remoteAddress : String) (nodeId nodeTime : Nat)
    (h : (handleMessage env now st (.player_login replyTo username password uid profile
        socket remoteAddress nodeId nodeTime)).replies.map Reply.response = [1]) :
    (handleMessage env now st (.player_login replyTo username password uid profile
        socket remoteAddress nodeId nodeTime)).state = st := by
  cases hacc : st.accounts.find? (fun a => a.username == username) with
  | none =>
    cases hw : env.WEBSITE_REGISTRATION with
    | false =>
      exfalso
      simp [handleMessage, handle_player_login, hacc, hw, simpleReply] at h
    | true =>
      simp [handleMessage, handle_player_login, hacc, hw]
  | some account =>
    by_cases hpw : env.compare (toLowerCase password) account.password = true
    · by_cases hban : bannedNow account.banned_until now = true
      · exfalso
        simp [handleMessage, handle_player_login, hacc, hpw, hban, simpleReply] at h
      · have hban' : bannedNow account.banned_until now = false := by simpa using hban
        exfalso
        by_cases hrecon : (account.logged_in == nodeId) = true
        · simp only [handleMessage, handle_player_login, hacc, Option.isNone_some,
            Bool.and_false, Bool.false_eq_true, if_false, hpw, Bool.not_true, hban',
            hrecon, if_true, afterOwnership] at h
          split at h <;> simp [simpleReply] at h
        · have hrecon' : (account.logged_in == nodeId) = false := by simpa using hrecon
          by_cases hzero : (account.logged_in == 0) = true
          · simp only [handleMessage, handle_player_login, hacc, Option.isNone_some,
              Bool.and_false, Bool.false_eq_true, if_false, hpw, Bool.not_true, hban',
              hrecon', hzero, afterOwnership] at h
            split at h <;> simp [simpleReply] at h
          · have hzero' : (account.logged_in == 0) = false := by simpa using hzero
            simp [handleMessage, handle_player_login, hacc, hpw, hban', hrecon', hzero',
              simpleReply] at h
    · have hpw' : env.compare (toLowerCase password) account.password = false := by
        simpa using hpw
      simp [handleMessage, handle_player_login, hacc, hpw']

/-- C10, witness: a login for an unknown username while website
registration is on (no auto-registration) is answered with the single
code-1 reply and the state is untouched. -/
theorem C10_code1_no_mutation_witness :
    (handleMessage testEnv 0 aliceState
        (.player_login 5 "nobody" "x" 1 "main" 2 "ip" 7 0)).state = aliceState :=
  C10_code1_no_mutation testEnv 0 aliceState 5 "nobody" "x" 1 "main" 2 "ip" 7 0 (by decide)

end LoginServer
